import Mathlib

/-!
Shallow embedding of `rpyc/utils/server.py` (plug-in server: accept loop,
threaded / thread-pool / forking dispatch, authentication gate, client-set
tracking, close, background registrar loop).

Sockets are identified by natural numbers.  Python exceptions relevant to the
server module are modelled by the `PyExc` type.  The externally observable
behaviour of each method (state mutation, which sockets were shut down and
closed, which exception escapes) is returned explicitly.
-/

/-- Python exceptions that the server code raises or catches. -/
inductive PyExc where
  | authenticationError   -- rpyc.utils.authenticators.AuthenticationError
  | eofError              -- EOFError raised by Server.accept
  | threadPoolFull        -- ThreadPoolFull raised by ThreadPoolServer._accept_method
  | queueFull             -- Queue.Full raised by Queue.put_nowait
  | queueEmpty            -- Queue.Empty raised by Queue.get on timeout
  | attributeError        -- AttributeError from reading a missing attribute
  | genericError          -- any other Exception (e.g. raised by _serve_client)
  | socketError           -- socket.error, e.g. from listen() on a closed listener
deriving DecidableEq, Repr

/-- errno.EINTR on POSIX platforms. -/
def EINTR : Nat := 4

/-! ## Server state

The fields of a `Server` instance that the claims are about.
`autoRegister = none` models the `auto_register` attribute being absent
(never assigned), so that reading it raises `AttributeError`;
`autoRegister = some b` models `self.auto_register = b`. -/

structure SrvSt where
  active : Bool               -- self.active
  closed : Bool               -- self._closed
  autoRegister : Option Bool  -- self.auto_register (none = attribute missing)
  listenerClosed : Bool       -- whether self.listener.close() has run
  clients : Finset Nat        -- self.clients
  unregisterCalls : Nat       -- number of calls made to self.registrar.unregister
deriving DecidableEq

/-- Model of `Server.__init__` (lines 50-61): sets `active = False`, `_closed = False`,
`clients = set()`, and assigns `self.auto_register = bool(registrar)` ONLY when
the `auto_register` argument is `None` (line 58-59); when the caller passes an
explicit `True`/`False`, the attribute is never assigned. -/
def serverInit (autoRegisterArg : Option Bool) (registrarGiven : Bool) : SrvSt :=
  { active := false
    closed := false
    autoRegister :=
      match autoRegisterArg with
      | none => some registrarGiven   -- self.auto_register = bool(registrar)
      | some _ => none                -- attribute left unassigned
    listenerClosed := false
    clients := ∅
    unregisterCalls := 0 }

/-- Model of `ThreadPoolServer.__init__` (lines 251-268): calls `Server.__init__` and
then declares the pool active (`self.active = True`, line 263). -/
def threadPoolServerInit (autoRegisterArg : Option Bool) (registrarGiven : Bool) : SrvSt :=
  let st := serverInit autoRegisterArg registrarGiven
  { st with active := true }

/-- Model of `Server.close` (lines 88-108).  `unregisterRaises` says whether the
registrar's `unregister` call raises; the code catches that exception and only
logs it, so the parameter does not change the outcome.  Returns the mutated
state together with the exception escaping from `close`, if any (reading the
missing `auto_register` attribute raises `AttributeError` at line 95, after
`_closed` and `active` have already been mutated). -/
def close (unregisterRaises : Bool) (st : SrvSt) : SrvSt × Option PyExc :=
  if st.closed then (st, none)
  else
    let st1 := { st with closed := true, active := false }
    match st1.autoRegister with
    | none => (st1, some PyExc.attributeError)
    | some ar =>
        -- the unregister call is attempted; a raise is caught and logged
        let st2 :=
          if ar then { st1 with unregisterCalls := st1.unregisterCalls + 1 } else st1
        let st3 := { st2 with listenerClosed := true }
        -- each tracked client is shut down and closed, then the set is cleared
        ({ st3 with clients := ∅ }, none)

/-- The prelude of `Server.start` (lines 207-215):
`self.listener.listen(self.backlog)` (line 209) — which raises `socket.error`
when the listener has already been closed by `close()`, before anything else
runs — then log, set `self.active = True` (line 211), then read
`self.auto_register` (line 212, raising `AttributeError` when the attribute
was never assigned). -/
def startPrelude (st : SrvSt) : SrvSt × Option PyExc :=
  if st.listenerClosed then (st, some PyExc.socketError)
  else
    let st1 := { st with active := true }
    match st1.autoRegister with
    | none => (st1, some PyExc.attributeError)
    | some _ => (st1, none)

/-! ## Authentication gate and servicer pipeline

`Server._authenticate_and_serve_client` (lines 142-168).  The behaviour of the
configured authenticator on the one socket at hand is an `AuthBeh`; the
servicer `_serve_client` either completes or raises (`serveRaises`). -/

/-- What `self.authenticator(sock)` does: raise `AuthenticationError`, or
return a (possibly different, wrapped) socket together with credentials. -/
inductive AuthBeh where
  | reject
  | accept (sock : Nat) (credentials : Option String)
deriving DecidableEq

/-- Observable outcome of `_authenticate_and_serve_client`. -/
structure ASResult where
  raised : Option PyExc                     -- exception escaping the method
  servedWith : Option (Nat × Option String) -- (sock, credentials) passed to _serve_client
  finalSock : Nat                           -- the binding of `sock` at the finally clause
  shutdownClosed : List Nat                 -- sockets shut down then closed by the finally
  clients : Finset Nat                      -- self.clients afterwards
deriving DecidableEq

/-- Model of `Server._authenticate_and_serve_client(sock)` (lines 142-168).  When an
authenticator is configured, `sock, credentials = self.authenticator(sock)`
rebinds `sock` on success; on `AuthenticationError` the method logs and
returns early.  Otherwise `credentials = None`.  `_serve_client(sock,
credentials)` runs; an exception there is logged and re-raised.  The `finally`
clause shuts down, closes, and discards from `self.clients` the CURRENT
binding of `sock`. -/
def authenticateAndServeClient (authenticator : Option AuthBeh) (serveRaises : Bool)
    (clients : Finset Nat) (sock0 : Nat) : ASResult :=
  let gate : Option (Nat × Option String) :=
    match authenticator with
    | none => some (sock0, none)              -- credentials = None (line 156)
    | some AuthBeh.reject => none             -- AuthenticationError: log, return (150-152)
    | some (AuthBeh.accept s c) => some (s, c)  -- sock, credentials = authenticator(sock)
  match gate with
  | none =>
      -- early return; the finally clause still runs on the original sock
      { raised := none
        servedWith := none
        finalSock := sock0
        shutdownClosed := [sock0]
        clients := clients.erase sock0 }
  | some (s, c) =>
      -- _serve_client(sock, credentials); an exception is logged and re-raised;
      -- finally: sock.shutdown, sock.close, self.clients.discard(sock)
      { raised := if serveRaises then some PyExc.genericError else none
        servedWith := some (s, c)
        finalSock := s
        shutdownClosed := [s]
        clients := clients.erase s }

/-- The `config` built by `_serve_client` (line 179):
`dict(self.protocol_config, credentials = credentials)` — a copy of the
protocol configuration with the key `"credentials"` bound to the resolved
credentials. -/
def serveClientConfig (protocolConfig : List (String × Option String))
    (credentials : Option String) : List (String × Option String) :=
  ("credentials", credentials) ::
    protocolConfig.filter (fun kv => kv.1 ≠ "credentials")

/-! ## The accept loop

`Server.accept` (lines 114-133) loops on `listener.accept()`.  Each attempt's
outcome is an `AcceptEvent`; the loop consumes events until a connection
arrives or a non-retryable error occurs. -/

inductive AcceptEvent where
  | timeout               -- socket.timeout
  | sockError (eno : Nat) -- socket.error with the given errno
  | conn (sock : Nat)     -- a successful accept returning this socket
deriving DecidableEq

inductive AcceptOut where
  | blocked                                      -- still waiting (no more events)
  | eofError                                     -- raise EOFError (line 126)
  | accepted (clients : Finset Nat) (dispatched : Nat) -- clients.add(sock); _accept_method(sock)
deriving DecidableEq

/-- Model of `Server.accept` with an abstract `_accept_method`: timeout and EINTR are
silently retried; any other socket error raises `EOFError`; on success the
socket is added to `self.clients` and handed to `_accept_method`. -/
def accept (clients : Finset Nat) : List AcceptEvent → AcceptOut
  | [] => AcceptOut.blocked
  | AcceptEvent.timeout :: rest => accept clients rest
  | AcceptEvent.sockError eno :: rest =>
      if eno = EINTR then accept clients rest else AcceptOut.eofError
  | AcceptEvent.conn s :: _ => AcceptOut.accepted (insert s clients) s

/-! ## Thread pool: queue, dispatch, serve loop, workers -/

/-- The bounded admission queue `Queue.Queue(nbthreads)` (line 261). -/
structure PoolQueue where
  items : List Nat
  maxsize : Nat
deriving DecidableEq

/-- Model of `Queue.put_nowait(sock)`: appends when below capacity, otherwise raises
`Queue.Full`. -/
def putNowait (q : PoolQueue) (sock : Nat) : Except PyExc PoolQueue :=
  if q.items.length < q.maxsize then Except.ok { q with items := q.items ++ [sock] }
  else Except.error PyExc.queueFull

/-- Model of `Queue.get`: removes and returns the oldest item; raises `Queue.Empty`
when nothing arrives within the timeout. -/
def queueGet (q : PoolQueue) : Except PyExc (Nat × PoolQueue) :=
  match q.items with
  | [] => Except.error PyExc.queueEmpty
  | s :: rest => Except.ok (s, { q with items := rest })

/-- Model of `ThreadPoolServer._accept_method` (lines 287-295): try `put_nowait`; on
`Queue.Full` raise `ThreadPoolFull("server is overloaded")`. -/
def acceptMethodPool (q : PoolQueue) (sock : Nat) : Except PyExc PoolQueue :=
  match putNowait q sock with
  | Except.ok q1 => Except.ok q1
  | Except.error PyExc.queueFull => Except.error PyExc.threadPoolFull
  | Except.error e => Except.error e

/-- State visible to the pooled server's serve loop. -/
structure PoolSt where
  clients : Finset Nat
  queue : PoolQueue
deriving DecidableEq

/-- How the `while True: self.accept()` loop of `Server.start` (lines 219-227)
ends: out of events (still blocked), an `EOFError` caught at line 223-224, or
some other exception propagating out of the loop. -/
inductive LoopEnd where
  | blocked
  | eofCaught
  | raised (e : PyExc)
deriving DecidableEq

/-- The serve loop of `Server.start` specialised to `ThreadPoolServer`:
`while True: self.accept()` where `accept` classifies events as in
`Server.accept` and `_accept_method` is `acceptMethodPool`.  `start` catches
only `EOFError` (and `KeyboardInterrupt`); any other exception — in particular
`ThreadPoolFull` — ends the loop and propagates. -/
def serveLoop (st : PoolSt) : List AcceptEvent → LoopEnd × PoolSt
  | [] => (LoopEnd.blocked, st)
  | AcceptEvent.timeout :: rest => serveLoop st rest
  | AcceptEvent.sockError eno :: rest =>
      if eno = EINTR then serveLoop st rest else (LoopEnd.eofCaught, st)
  | AcceptEvent.conn s :: rest =>
      let st1 : PoolSt := { st with clients := insert s st.clients }
      match acceptMethodPool st1.queue s with
      | Except.ok q => serveLoop { st1 with queue := q } rest
      | Except.error e => (LoopEnd.raised e, st1)

/-! ## Pool worker loop

`ThreadPoolServer._authenticate_and_serve_clients` (lines 270-285): while
`self.active`, `queue.get` (timing out with `Queue.Empty`, silently retried)
then `_authenticate_and_serve_client(sock)`; any other `Exception` is logged
and followed by `time.sleep(.2)` — the worker keeps looping.  Each loop
iteration's stimulus is a `WorkerEvent`. -/

inductive WorkerEvent where
  | deactivate                              -- self.active reads False: loop exits
  | empty                                   -- queue.get times out (Queue.Empty)
  | job (sock : Nat) (raisesDuringServe : Bool) -- got sock; pipeline raises or not
deriving DecidableEq

structure WorkerRun where
  served : List Nat   -- sockets on which the pipeline was invoked
  sleptMs : Nat       -- total backoff (time.sleep(.2) = 200 ms per failure)
  exited : Bool       -- whether the worker left its loop
deriving DecidableEq

def workerLoop : List WorkerEvent → WorkerRun
  | [] => { served := [], sleptMs := 0, exited := false }
  | WorkerEvent.deactivate :: _ => { served := [], sleptMs := 0, exited := true }
  | WorkerEvent.empty :: rest => workerLoop rest
  | WorkerEvent.job s raises :: rest =>
      let r := workerLoop rest
      { served := s :: r.served
        sleptMs := (if raises then 200 else 0) + r.sleptMs
        exited := r.exited }

/-- The sockets of the `job` events of a script, in order. -/
def jobSockets (evs : List WorkerEvent) : List Nat :=
  evs.filterMap (fun e =>
    match e with
    | WorkerEvent.job s _ => some s
    | _ => none)

/-- The number of `job` events whose pipeline invocation raises. -/
def failingJobs (evs : List WorkerEvent) : Nat :=
  (evs.filter (fun e =>
    match e with
    | WorkerEvent.job _ true => true
    | _ => false)).length

/-- Number of pool workers still in their loop after running their scripts. -/
def aliveWorkerCount (scripts : List (List WorkerEvent)) : Nat :=
  (scripts.filter (fun evs => !(workerLoop evs).exited)).length

/-! ## Background registrar loop

`Server._bg_register` (lines 187-205): `tnext = 0`; while active, read the
clock, and when `t >= tnext` set `tnext = t + interval` and call
`registrar.register(...)` inside `try/except Exception` (failures are logged,
never raised); then `time.sleep(1)`.  We model one loop iteration per time
unit; `steps` is how many iterations run while the flag stays active; `fails`
supplies, per successive register call, whether that call raises.  The result
lists each register invocation as (time, raised?). -/
def bgRegister (interval : Nat) : Nat → Nat → Nat → List Bool → List (Nat × Bool)
  | 0, _, _, _ => []
  | Nat.succ steps, t, tnext, fails =>
      if tnext ≤ t then
        (t, fails.headD false) ::
          bgRegister interval steps (t + 1) (t + interval) (fails.drop 1)
      else
        bgRegister interval steps (t + 1) tnext fails

/-! ## Theorems about the claims -/

/-- C1 (evaluation at the failing input): client set `{5}`, accepted socket
`5`, a configured authenticator that wraps it into socket `99` with
credentials, service completing normally.  The `finally` clause of
`_authenticate_and_serve_client` shuts down and closes the WRAPPED socket and
discards it from `self.clients` — a no-op, since only the original socket `5`
is in the set — so the socket originally inserted at accept time is STILL a
member of the client set afterwards, contradicting the claim that it is
removed on every outcome even when the authenticator returns a different,
wrapped socket. -/
theorem C1_wrapped_socket_remains_tracked :
    (authenticateAndServeClient (some (AuthBeh.accept 99 (some "tok"))) false
        ({5} : Finset Nat) 5).clients = ({5} : Finset Nat)
  ∧ 5 ∈ (authenticateAndServeClient (some (AuthBeh.accept 99 (some "tok"))) false
        ({5} : Finset Nat) 5).clients
  ∧ (authenticateAndServeClient (some (AuthBeh.accept 99 (some "tok"))) false
        ({5} : Finset Nat) 5).shutdownClosed = [99]
  ∧ (authenticateAndServeClient (some (AuthBeh.accept 99 (some "tok"))) false
        ({5} : Finset Nat) 5).raised = none := by
  refine ⟨?_, ?_, rfl, rfl⟩ <;> decide

/-- C6: the authentication gate.  With no authenticator configured the
servicer is invoked with the original socket and credentials `none`; when the
authenticator raises an authentication failure the servicer is never invoked,
no error propagates past the gate, and the socket is shut down and closed;
when the authenticator succeeds the servicer receives exactly the socket and
credentials the authenticator returned, and the config passed to the protocol
session maps `"credentials"` to exactly those credentials. -/
theorem C6_authentication_gate (serveRaises : Bool) (clients : Finset Nat)
    (sock0 w : Nat) (c : Option String) (pc : List (String × Option String)) :
    (authenticateAndServeClient none serveRaises clients sock0).servedWith
        = some (sock0, none)
  ∧ ((authenticateAndServeClient (some AuthBeh.reject) serveRaises clients sock0).servedWith
        = none
      ∧ (authenticateAndServeClient (some AuthBeh.reject) serveRaises clients sock0).raised
        = none
      ∧ (authenticateAndServeClient (some AuthBeh.reject) serveRaises clients sock0).shutdownClosed
        = [sock0])
  ∧ (authenticateAndServeClient (some (AuthBeh.accept w c)) serveRaises clients sock0).servedWith
        = some (w, c)
  ∧ (serveClientConfig pc c).lookup "credentials" = some c := by
  refine ⟨rfl, ⟨rfl, rfl, rfl⟩, rfl, ?_⟩
  simp [serveClientConfig, List.lookup]

/-- C5: classification of accept outcomes.  A timeout is silently retried; a
socket error with errno EINTR is silently retried; any other socket error
raises `EOFError`; on success the new socket is added to the client set and
handed to the dispatch strategy. -/
theorem C5_accept_classification (clients : Finset Nat) (events : List AcceptEvent)
    (eno s : Nat) :
    accept clients (AcceptEvent.timeout :: events) = accept clients events
  ∧ accept clients (AcceptEvent.sockError EINTR :: events) = accept clients events
  ∧ (eno ≠ EINTR → accept clients (AcceptEvent.sockError eno :: events) = AcceptOut.eofError)
  ∧ accept clients (AcceptEvent.conn s :: events) = AcceptOut.accepted (insert s clients) s
  ∧ s ∈ insert s clients := by
  refine ⟨rfl, by simp [accept], fun h => by simp [accept, h], rfl,
    Finset.mem_insert_self s clients⟩

/-- Witness for C5: a socket error with errno 5 (≠ EINTR) makes accept raise
EOFError. -/
theorem C5_accept_classification_witness :
    accept ∅ [AcceptEvent.sockError 5] = AcceptOut.eofError :=
  (C5_accept_classification ∅ [] 5 7).2.2.1 (by decide)

/-- C10: when the `auto_register` argument is an explicit boolean, the
constructor never assigns the `auto_register` attribute, so both `close()` and
`start()` raise `AttributeError` when they read it; the attribute is assigned
(from `bool(registrar)`) only when the argument is left as `None`. -/
theorem C10_explicit_auto_register_loses_attribute (b registrarGiven ur : Bool) :
    (serverInit (some b) registrarGiven).autoRegister = none
  ∧ (close ur (serverInit (some b) registrarGiven)).2 = some PyExc.attributeError
  ∧ (startPrelude (serverInit (some b) registrarGiven)).2 = some PyExc.attributeError
  ∧ (serverInit none registrarGiven).autoRegister = some registrarGiven := by
  refine ⟨rfl, ?_, rfl, rfl⟩
  simp [close, serverInit]

/-- C4: `close` is idempotent.  If the first `close()` on a not-yet-closed
server returns without raising, the client set is empty afterwards, and a
second `close()` is a no-op: same state, no exception, and the registrar's
`unregister` is not invoked a second time. -/
theorem C4_close_idempotent (ur ur2 : Bool) (st : SrvSt)
    (hfirst : st.closed = false) (hret : (close ur st).2 = none) :
    ((close ur st).1).clients = ∅
  ∧ close ur2 (close ur st).1 = ((close ur st).1, none)
  ∧ ((close ur2 (close ur st).1).1).unregisterCalls = ((close ur st).1).unregisterCalls := by
  rcases st with ⟨act, cl, ar, lc, cls, uc⟩
  simp only at hfirst
  subst hfirst
  cases ar with
  | none => simp [close] at hret
  | some b => cases b <;> simp [close]

/-- Witness for C4 at a concretely constructed server. -/
theorem C4_close_idempotent_witness :
    ((close false (serverInit none true)).1).clients = ∅
  ∧ close true (close false (serverInit none true)).1
      = ((close false (serverInit none true)).1, none)
  ∧ ((close true (close false (serverInit none true)).1).1).unregisterCalls
      = ((close false (serverInit none true)).1).unregisterCalls :=
  C4_close_idempotent false true (serverInit none true) (by decide) (by decide)

/-- C2 counterexample: pool capacity 1 with the admission queue already
holding socket 7.  Handling the events "connection 1, connection 2", the serve
loop of `start()` does NOT continue accepting after the overload on
connection 1: `ThreadPoolFull` propagates out of the `while True` loop (which
catches only `EOFError` and `KeyboardInterrupt`), ending the service lifetime,
and connection 2 is never accepted. -/
theorem C2_counterexample :
    serveLoop ⟨∅, ⟨[7], 1⟩⟩ [AcceptEvent.conn 1, AcceptEvent.conn 2]
      = (LoopEnd.raised PyExc.threadPoolFull, ⟨{1}, ⟨[7], 1⟩⟩)
  ∧ (2 : Nat) ∉ (serveLoop ⟨∅, ⟨[7], 1⟩⟩ [AcceptEvent.conn 1, AcceptEvent.conn 2]).2.clients := by
  constructor <;> decide

/-- C2 (amended): when the admission queue is full, dispatch returns
`ThreadPoolFull` synchronously at the call site (the dispatch function itself
yields the error, without blocking and without enqueueing); but because
`start()` catches only `EOFError` and `KeyboardInterrupt`, that exception
raised inside the serve loop terminates the loop — regardless of how many
further accept events were pending — rather than letting it continue
accepting. -/
theorem C2_overload_synchronous_but_ends_serve_loop (st : PoolSt) (s : Nat)
    (rest : List AcceptEvent)
    (hfull : st.queue.items.length = st.queue.maxsize) :
    acceptMethodPool st.queue s = Except.error PyExc.threadPoolFull
  ∧ serveLoop st (AcceptEvent.conn s :: rest)
      = (LoopEnd.raised PyExc.threadPoolFull, { st with clients := insert s st.clients }) := by
  have h1 : acceptMethodPool st.queue s = Except.error PyExc.threadPoolFull := by
    simp [acceptMethodPool, putNowait, hfull]
  exact ⟨h1, by simp [serveLoop, h1]⟩

/-- Witness for C2 (amended) at a concrete full queue. -/
theorem C2_overload_synchronous_but_ends_serve_loop_witness :
    acceptMethodPool (⟨[7], 1⟩ : PoolQueue) 3 = Except.error PyExc.threadPoolFull
  ∧ serveLoop ⟨∅, ⟨[7], 1⟩⟩ [AcceptEvent.conn 3]
      = (LoopEnd.raised PyExc.threadPoolFull, ⟨insert 3 ∅, ⟨[7], 1⟩⟩) :=
  C2_overload_synchronous_but_ends_serve_loop ⟨∅, ⟨[7], 1⟩⟩ 3 [] (by decide)

/-- C3 counterexample: pool size K = 1.  Socket 1 is dispatched (queued), then
the single worker takes it off the queue — all K workers now busy, queue
empty.  The (K+1)-th dispatch attempt (socket 2) SUCCEEDS instead of returning
`ThreadPoolFull`: overload is keyed to the queue's occupancy, and busy workers
have already removed their sockets from the queue. -/
theorem C3_counterexample :
    acceptMethodPool ⟨[], 1⟩ 1 = Except.ok ⟨[1], 1⟩
  ∧ queueGet ⟨[1], 1⟩ = Except.ok (1, ⟨[], 1⟩)
  ∧ acceptMethodPool ⟨[], 1⟩ 2 = Except.ok ⟨[2], 1⟩ := by
  refine ⟨rfl, rfl, rfl⟩

/-- C3 (amended): dispatch raises `ThreadPoolFull` immediately exactly when
the admission queue already holds K = capacity pending sockets not yet taken
by any worker; while the pending count is below K the dispatch enqueues and
succeeds.  Since each busy worker removed its socket from the queue when it
began service, K busy workers alone leave room for K further dispatches before
the overload error. -/
theorem C3_overload_iff_queue_at_capacity (q : PoolQueue) (s : Nat) :
    (acceptMethodPool q s = Except.error PyExc.threadPoolFull ↔ q.maxsize ≤ q.items.length)
  ∧ (q.items.length < q.maxsize →
      acceptMethodPool q s = Except.ok { q with items := q.items ++ [s] }) := by
  constructor
  · constructor
    · intro h
      by_contra hge
      push_neg at hge
      simp [acceptMethodPool, putNowait, hge] at h
    · intro h
      have hnl : ¬ q.items.length < q.maxsize := not_lt.mpr h
      simp [acceptMethodPool, putNowait, hnl]
  · intro h
    simp [acceptMethodPool, putNowait, h]

/-- Witness for C3 (amended): overload at a full queue, success below
capacity. -/
theorem C3_overload_iff_queue_at_capacity_witness :
    (acceptMethodPool (⟨[9], 1⟩ : PoolQueue) 3 = Except.error PyExc.threadPoolFull
       ↔ (1 : Nat) ≤ [9].length)
  ∧ acceptMethodPool (⟨[], 1⟩ : PoolQueue) 3 = Except.ok ⟨[3], 1⟩ :=
  ⟨(C3_overload_iff_queue_at_capacity ⟨[9], 1⟩ 3).1,
   (C3_overload_iff_queue_at_capacity ⟨[], 1⟩ 3).2 (by decide)⟩

/-- C7 counterexample: `ThreadPoolServer.__init__` assigns the active flag
(`self.active = True`, line 263) at construction time, before any call to
`start()` — whereas the base constructor leaves it `False` — so an operation
other than `start()`/`close()` writes the flag, contradicting the claim. -/
theorem C7_counterexample :
    (threadPoolServerInit none false).active = true
  ∧ (serverInit none false).active = false := by
  constructor <;> rfl

/-- C7 (amended): the active flag is also written at construction
(`Server.__init__` initialises it to `False`, `ThreadPoolServer.__init__` then
sets it to `True`), besides `start()` (sets `True`, when the listener is still
open) and the first `close()` (sets `False`).  The false transition of a
`close()` that ran to completion IS irreversible: such a `close()` also closed
the listener, so a subsequent `start()` raises `socket.error` at
`listener.listen()` (line 209) before reaching the `active = True` assignment
(line 211), and the flag stays false. -/
theorem C7_active_flag_writers (a : Option Bool) (r ur : Bool) (st : SrvSt)
    (hopen : st.closed = false) (hret : (close ur st).2 = none) :
    (serverInit a r).active = false
  ∧ (threadPoolServerInit a r).active = true
  ∧ (st.listenerClosed = false → ((startPrelude st).1).active = true)
  ∧ ((close ur st).1).active = false
  ∧ startPrelude (close ur st).1 = ((close ur st).1, some PyExc.socketError)
  ∧ ((startPrelude (close ur st).1).1).active = false := by
  rcases st with ⟨act, cl, ar, lc, cls, uc⟩
  simp only at hopen
  subst hopen
  cases ar with
  | none => simp [close] at hret
  | some b =>
    refine ⟨rfl, rfl, ?_, ?_, ?_, ?_⟩
    · intro hlc
      simp only at hlc
      subst hlc
      cases b <;> simp [startPrelude]
    · cases b <;> simp [close]
    · cases b <;> simp [close, startPrelude]
    · cases b <;> simp [close, startPrelude]

/-- Witness for C7 (amended): a fresh server's `start()` sets the flag; after
a completed `close()`, `start()` raises `socket.error` and the flag stays
false. -/
theorem C7_active_flag_writers_witness :
    (serverInit none true).active = false
  ∧ (threadPoolServerInit none true).active = true
  ∧ ((startPrelude (serverInit none true)).1).active = true
  ∧ ((close false (serverInit none true)).1).active = false
  ∧ startPrelude (close false (serverInit none true)).1
      = ((close false (serverInit none true)).1, some PyExc.socketError)
  ∧ ((startPrelude (close false (serverInit none true)).1).1).active = false :=
  have h := C7_active_flag_writers none true false (serverInit none true)
    (by decide) (by decide)
  ⟨h.1, h.2.1, h.2.2.1 (by decide), h.2.2.2.1, h.2.2.2.2.1, h.2.2.2.2.2⟩

/-- C8: a pool worker survives per-connection failures.  On any script of loop
iterations that never observes the active flag as false, the worker invokes
the pipeline on every job in order (failures included — a failing pipeline
invocation is logged and followed by the 200 ms backoff sleep, after which the
worker keeps serving), it never leaves its loop, and a pool of workers with
such scripts keeps all of its workers alive, so the worker count stays at the
configured pool size across any number of per-connection failures. -/
theorem C8_pool_worker_survives_failures (events : List WorkerEvent)
    (scripts : List (List WorkerEvent))
    (h1 : WorkerEvent.deactivate ∉ events)
    (h2 : ∀ evs ∈ scripts, WorkerEvent.deactivate ∉ evs) :
    workerLoop events
      = { served := jobSockets events
          sleptMs := 200 * failingJobs events
          exited := false }
  ∧ aliveWorkerCount scripts = scripts.length := by
  have key : ∀ evs : List WorkerEvent, WorkerEvent.deactivate ∉ evs →
      workerLoop evs
        = { served := jobSockets evs
            sleptMs := 200 * failingJobs evs
            exited := false } := by
    intro evs
    induction evs with
    | nil => intro _; rfl
    | cons e rest ih =>
      intro hn
      have hrest : WorkerEvent.deactivate ∉ rest :=
        fun hm => hn (List.mem_cons_of_mem _ hm)
      cases e with
      | deactivate => exact absurd (List.mem_cons_self _ _) hn
      | empty => exact ih hrest
      | job s raises =>
        cases raises <;>
          simp [workerLoop, jobSockets, failingJobs, ih hrest,
            List.filterMap_cons, List.filter_cons, Nat.mul_succ] <;>
          omega
  have part2 : aliveWorkerCount scripts = scripts.length := by
    have hall : List.filter (fun evs => !(workerLoop evs).exited) scripts = scripts := by
      rw [List.filter_eq_self]
      intro evs hm
      simp [key evs (h2 evs hm)]
    unfold aliveWorkerCount
    rw [hall]
  exact ⟨key events h1, part2⟩

/-- Witness for C8 on a concrete script with a failing job followed by a
served job, in a two-worker pool. -/
theorem C8_pool_worker_survives_failures_witness :
    workerLoop [WorkerEvent.job 1 true, WorkerEvent.empty, WorkerEvent.job 2 false]
      = { served := jobSockets [WorkerEvent.job 1 true, WorkerEvent.empty, WorkerEvent.job 2 false]
          sleptMs := 200 * failingJobs [WorkerEvent.job 1 true, WorkerEvent.empty, WorkerEvent.job 2 false]
          exited := false }
  ∧ aliveWorkerCount [[WorkerEvent.job 3 true], []]
      = ([[WorkerEvent.job 3 true], []] : List (List WorkerEvent)).length :=
  C8_pool_worker_survives_failures
    [WorkerEvent.job 1 true, WorkerEvent.empty, WorkerEvent.job 2 false]
    [[WorkerEvent.job 3 true], []] (by decide) (by decide)

/-- C9: the registrar loop.  Started at time 0 with `tnext = 0`, the
background loop invokes `register` already in its first iteration (time 0,
within one re-registration interval of `start()`); the schedule of register
invocations is identical whatever subset of the calls raises, because a raise
is caught and logged (a failing call does not stop subsequent periodic
attempts); and during `close()` on a not-yet-closed server with
auto-registration enabled, `unregister` is invoked exactly once — `close`
returns no exception even if `unregister` raises, and a second `close()` does
not invoke it again. -/
theorem C9_registrar_loop (interval steps : Nat) (fails fails2 : List Bool)
    (st : SrvSt) (ur ur2 : Bool)
    (hsteps : 1 ≤ steps) (hopen : st.closed = false)
    (har : st.autoRegister = some true) :
    (bgRegister interval steps 0 0 fails).head?.map Prod.fst = some 0
  ∧ (bgRegister interval steps 0 0 fails).map Prod.fst
      = (bgRegister interval steps 0 0 fails2).map Prod.fst
  ∧ (close ur st).2 = none
  ∧ ((close ur st).1).unregisterCalls = st.unregisterCalls + 1
  ∧ close ur2 (close ur st).1 = ((close ur st).1, none) := by
  have sched : ∀ (n t tnext : Nat) (f g : List Bool),
      (bgRegister interval n t tnext f).map Prod.fst
        = (bgRegister interval n t tnext g).map Prod.fst := by
    intro n
    induction n with
    | zero => intro t tnext f g; rfl
    | succ k ih =>
      intro t tnext f g
      by_cases h : tnext ≤ t
      · simp only [bgRegister, if_pos h, List.map_cons]
        exact congrArg (List.cons t) (ih (t + 1) (t + interval) (f.drop 1) (g.drop 1))
      · simp only [bgRegister, if_neg h]
        exact ih (t + 1) tnext f g
  have hclose : (close ur st).2 = none
      ∧ ((close ur st).1).unregisterCalls = st.unregisterCalls + 1
      ∧ close ur2 (close ur st).1 = ((close ur st).1, none) := by
    rcases st with ⟨act, cl, ar, lc, cls, uc⟩
    simp only at hopen har
    subst hopen
    subst har
    simp [close]
  refine ⟨?_, sched steps 0 0 fails fails2, hclose.1, hclose.2.1, hclose.2.2⟩
  cases steps with
  | zero => omega
  | succ k => simp [bgRegister]

/-- Witness for C9 with a one-iteration run whose single register call raises,
and a concretely constructed auto-registering server. -/
theorem C9_registrar_loop_witness :
    (bgRegister 60 1 0 0 [true]).head?.map Prod.fst = some 0
  ∧ (bgRegister 60 1 0 0 [true]).map Prod.fst
      = (bgRegister 60 1 0 0 []).map Prod.fst
  ∧ (close true (serverInit none true)).2 = none
  ∧ ((close true (serverInit none true)).1).unregisterCalls
      = (serverInit none true).unregisterCalls + 1
  ∧ close false (close true (serverInit none true)).1
      = ((close true (serverInit none true)).1, none) :=
  C9_registrar_loop 60 1 [true] [] (serverInit none true) true false
    (by decide) (by decide) (by decide)
